import Mathlib

/-!
Shallow embedding of amdgpu_tweakd.py (the latest/most complete variant of the
repository): device-config matching (DeviceMatchingInfo.match / best_match),
the sysfs override ledger (SysfsOverride), config parsing
(parse_device_config and main's per-section list comprehension), and the fan
curve controller (FanController.__init__ / update / restore_pwm_enable).

Modelling conventions:
- Python floats are idealized as exact rationals (every finite float is a
  rational); the single transcendental operation, pow with a float exponent
  (line 133), is modelled by Real.rpow, so the curve output lives in ℝ.
- Sysfs files are explicit values passed in (a tick's sampled temperature and
  the current pwm1_enable contents) or an explicit path-indexed store.
- Python exceptions become Except: FanController.update raises
  ZeroDivisionError exactly when temp_delta == 0.0 and the active branch is
  reached; a malformed config option raises ValueError out of
  parse_device_config.
-/

/-! ## Device matching data (DeviceMatchingInfo, amdgpu_tweakd.py lines 176-213) -/

/-- The identification snapshot DeviceMatchingInfo.__init__ builds: properties
PCI_ID, PCI_SLOT_NAME, PCI_SUBSYS_ID (keys lowercased) then attributes
device, vbios_version, each possibly absent (None). -/
structure DeviceData where
  pci_id : Option String
  pci_slot_name : Option String
  pci_subsys_id : Option String
  device : Option String
  vbios_version : Option String
deriving DecidableEq

/-- The DeviceConfig namedtuple produced by parse_device_config: five optional
identification fields, then the typed tuning fields with their defaults
(DEVICE_CONFIG_FIELDS / DEVICE_CONFIG_DEFAULTS, lines 22-45). Fields that
default in DEVICE_CONFIG_DEFAULTS are always present; the others are None
when the section does not set them. -/
structure DeviceConfig where
  name : String
  device : Option String
  vbios_version : Option String
  pci_id : Option String
  pci_slot_name : Option String
  pci_subsys_id : Option String
  fan_control : Bool
  fan_pwm_min : Option ℚ
  fan_pwm_max : Option ℚ
  temp_min : ℚ
  temp_max : Option ℚ
  fan_curve_pow : ℚ
  fan_semi_passive : Bool
  fan_semi_passive_hyst : ℚ
  power_cap : Option ℤ
deriving DecidableEq

/-- The (device value, config value) pairs DeviceMatchingInfo.match iterates
over, in self.data's dict insertion order: the three lowercased PROPS keys
then the two ATTRS keys (lines 180-186, 191-192). -/
def DeviceData.pairs (d : DeviceData) (c : DeviceConfig) :
    List (Option String × Option String) :=
  [(d.pci_id, c.pci_id), (d.pci_slot_name, c.pci_slot_name),
   (d.pci_subsys_id, c.pci_subsys_id), (d.device, c.device),
   (d.vbios_version, c.vbios_version)]

/-- The loop body of DeviceMatchingInfo.match (lines 191-202): skip keys the
config does not specify, return -1 on the first mismatch, otherwise count. -/
def matchGo : List (Option String × Option String) → ℤ → ℤ
  | [], score => score
  | (value, config_value) :: rest, score =>
    match config_value with
    | none => matchGo rest score
    | some _ => if value = config_value then matchGo rest (score + 1) else -1

/-- DeviceMatchingInfo.match (lines 188-202). Named matchScore because match
is a Lean keyword. -/
def DeviceData.matchScore (d : DeviceData) (c : DeviceConfig) : ℤ :=
  matchGo (d.pairs c) 0

/-- The loop body of DeviceMatchingInfo.best_match (lines 207-211): keep the
running best unless this candidate's score strictly exceeds it. -/
def bestStep (d : DeviceData) (best : Option DeviceConfig × ℤ)
    (config : DeviceConfig) : Option DeviceConfig × ℤ :=
  let score := d.matchScore config
  if score > best.2 then (some config, score) else best

/-- DeviceMatchingInfo.best_match (lines 204-213): fold bestStep over the
candidates, starting from (None, -1). -/
def DeviceData.best_match (d : DeviceData) (configs : List DeviceConfig) :
    Option DeviceConfig × ℤ :=
  configs.foldl (bestStep d) (none, -1)

/-- Modelled from the spec (for comparison with the code): one pair is a
disqualifying mismatch when the candidate specifies the attribute and the
value differs from the device's value. -/
def pairMismatch (p : Option String × Option String) : Bool :=
  p.2.isSome && p.1 != p.2

/-- Modelled from the spec (for comparison with the code): a candidate is
rejected when any identification attribute it specifies differs from the
device's value. -/
def specHasMismatch (d : DeviceData) (c : DeviceConfig) : Bool :=
  (d.pairs c).any pairMismatch

/-- Modelled from the spec (for comparison with the code): how many
identification attributes the candidate specifies. -/
def specCountSpecified (c : DeviceConfig) : ℤ :=
  ([c.pci_id, c.pci_slot_name, c.pci_subsys_id, c.device,
    c.vbios_version].countP Option.isSome : ℕ)

/-- Modelled from the spec (for comparison with the code): the selection rule
written as structural recursion over the candidate list. The head candidate
wins exactly when its score is non-negative and at least the best score of
the remaining candidates, so earlier candidates win exact ties and a score
of -1 never wins. -/
def specBestMatch (d : DeviceData) : List DeviceConfig → Option DeviceConfig × ℤ
  | [] => (none, -1)
  | c :: rest =>
    let s := d.matchScore c
    let best := specBestMatch d rest
    if 0 ≤ s ∧ best.2 ≤ s then (some c, s) else best

/-! ## SysfsOverride (amdgpu_tweakd.py lines 140-173) -/

/-- The sysfs file store: path to current contents; none models a path whose
read raises (missing file). -/
structure Sysfs where
  files : String → Option String

/-- A successful path.write_bytes: the path now holds the value. -/
def Sysfs.writeFile (w : Sysfs) (path value : String) : Sysfs :=
  ⟨fun p => if p = path then some value else w.files p⟩

/-- SysfsOverride.prev_values (line 142): the dict of original contents,
kept as an association list in insertion order (dict keys are unique because
an entry is only ever added when the key is absent). -/
structure SysfsOverride where
  prev_values : List (String × String)

/-- SysfsOverride.__setitem__ (lines 157-169): if the path has no recorded
original value yet, read it and record it; if that read fails, log and
return without writing. Then write the new value (SysfsOverride.write,
lines 144-155, whose own failure is caught and only logged; the model keeps
the successful-write outcome). -/
def SysfsOverride.setItem (st : Sysfs × SysfsOverride) (key value : String) :
    Sysfs × SysfsOverride :=
  match st.2.prev_values.lookup key with
  | some _ => (st.1.writeFile key value, st.2)
  | none =>
    match st.1.files key with
    | none => st
    | some cur => (st.1.writeFile key value, ⟨st.2.prev_values ++ [(key, cur)]⟩)

/-- SysfsOverride.rollback (lines 171-173): write every recorded original
value back, in insertion order. -/
def SysfsOverride.rollback (st : Sysfs × SysfsOverride) : Sysfs :=
  st.2.prev_values.foldl (fun w kv => w.writeFile kv.1 kv.2) st.1

/-- N writes to the same path through one ledger instance, in order. -/
def SysfsOverride.setItems (st : Sysfs × SysfsOverride) (key : String)
    (values : List String) : Sysfs × SysfsOverride :=
  values.foldl (fun st v => SysfsOverride.setItem st key v) st

/-! ## Config parsing (parse_device_config, lines 320-341, and main, line 401) -/

/-- One configparser section: its name and its raw option/value pairs. -/
structure ConfigSection where
  name : String
  options : List (String × String)
deriving DecidableEq

/-- section.get(option): the raw string, or none when the option is absent. -/
def ConfigSection.get (sec : ConfigSection) (option : String) : Option String :=
  sec.options.lookup option

/-- Digits of a decimal literal, most significant first. -/
def parseDigits (cs : List Char) : Option ℕ :=
  if cs = [] ∨ ¬ cs.all Char.isDigit then none
  else some (cs.foldl (fun n c => 10 * n + c.toNat - 48) 0)

/-- Python float() on the decimal literals the config format uses: optional
sign, integer digits, optional fractional digits (at least one digit in
total); anything else raises ValueError (modelled as none). -/
def parseFloat (s : String) : Option ℚ :=
  let cs := s.toList
  let signed : List Char → Option ℚ := fun body =>
    match body.splitOn '.' with
    | [intPart] => (parseDigits intPart).map fun n => (n : ℚ)
    | [intPart, fracPart] =>
      if intPart = [] ∧ fracPart = [] then none
      else
        match parseDigits (if intPart = [] then ['0'] else intPart),
              parseDigits (if fracPart = [] then ['0'] else fracPart) with
        | some n, some f => some ((n : ℚ) + (f : ℚ) / (10 : ℚ) ^ fracPart.length)
        | _, _ => none
    | _ => none
  match cs with
  | '-' :: body => (signed body).map Neg.neg
  | '+' :: body => signed body
  | body => signed body

/-- Python int() on a config value: optional sign then decimal digits. -/
def parseIntStr (s : String) : Option ℤ :=
  match s.toList with
  | '-' :: body => (parseDigits body).map fun n => -(n : ℤ)
  | '+' :: body => (parseDigits body).map fun n => (n : ℤ)
  | body => (parseDigits body).map fun n => (n : ℤ)

/-- configparser's BOOLEAN_STATES, applied to the lowercased value; any other
value raises ValueError (none). -/
def parseBoolStr (s : String) : Option Bool :=
  let v := s.toLower
  if v = "1" ∨ v = "yes" ∨ v = "true" ∨ v = "on" then some true
  else if v = "0" ∨ v = "no" ∨ v = "false" ∨ v = "off" then some false
  else none

/-- One float-typed option with no entry in DEVICE_CONFIG_DEFAULTS: absent
stays None, a malformed value raises ValueError naming the option and the
section (line 335). -/
def parseFloatOpt (sec : ConfigSection) (option : String) :
    Except String (Option ℚ) :=
  match sec.get option with
  | none => pure none
  | some v =>
    match parseFloat v with
    | some q => pure (some q)
    | none => throw (option ++ " in " ++ sec.name)

/-- One float-typed option with a default in DEVICE_CONFIG_DEFAULTS. -/
def parseFloatOptD (sec : ConfigSection) (option : String) (dflt : ℚ) :
    Except String ℚ :=
  match sec.get option with
  | none => pure dflt
  | some v =>
    match parseFloat v with
    | some q => pure q
    | none => throw (option ++ " in " ++ sec.name)

/-- One bool-typed option, read with section.getboolean and its default. -/
def parseBoolOptD (sec : ConfigSection) (option : String) (dflt : Bool) :
    Except String Bool :=
  match sec.get option with
  | none => pure dflt
  | some v =>
    match parseBoolStr v with
    | some b => pure b
    | none => throw (option ++ " in " ++ sec.name)

/-- One int-typed option with no default (power_cap). -/
def parseIntOpt (sec : ConfigSection) (option : String) :
    Except String (Option ℤ) :=
  match sec.get option with
  | none => pure none
  | some v =>
    match parseIntStr v with
    | some n => pure (some n)
    | none => throw (option ++ " in " ++ sec.name)

/-- parse_device_config (lines 320-341): the options in DEVICE_CONFIG_FIELDS
order, each converted by its type; the first ValueError aborts this
section's parse. The str/udev-encoded identification options cannot fail. -/
def parse_device_config (sec : ConfigSection) : Except String DeviceConfig := do
  let device := sec.get "device"
  let vbios_version := sec.get "vbios_version"
  let pci_id := sec.get "pci_id"
  let pci_slot_name := sec.get "pci_slot_name"
  let pci_subsys_id := sec.get "pci_subsys_id"
  let fan_control ← parseBoolOptD sec "fan_control" false
  let fan_pwm_min ← parseFloatOpt sec "fan_pwm_min"
  let fan_pwm_max ← parseFloatOpt sec "fan_pwm_max"
  let temp_min ← parseFloatOptD sec "temp_min" 40
  let temp_max ← parseFloatOpt sec "temp_max"
  let fan_curve_pow ← parseFloatOptD sec "fan_curve_pow" 2
  let fan_semi_passive ← parseBoolOptD sec "fan_semi_passive" false
  let fan_semi_passive_hyst ← parseFloatOptD sec "fan_semi_passive_hyst" 5
  let power_cap ← parseIntOpt sec "power_cap"
  pure ⟨sec.name, device, vbios_version, pci_id, pci_slot_name, pci_subsys_id,
        fan_control, fan_pwm_min, fan_pwm_max, temp_min, temp_max,
        fan_curve_pow, fan_semi_passive, fan_semi_passive_hyst, power_cap⟩

/-- main's config processing (line 401): the list comprehension
[parse_device_config(s) for s in config.values()], evaluated left to right,
so the first section whose parse raises aborts the whole thing. -/
def parse_all_sections : List ConfigSection → Except String (List DeviceConfig)
  | [] => .ok []
  | s :: rest => do
    let c ← parse_device_config s
    let cs ← parse_all_sections rest
    pure (c :: cs)

/-! ## FanController (amdgpu_tweakd.py lines 53-137) -/

/-- The characters bytes.rstrip() strips: ASCII whitespace. -/
def isPySpace (c : Char) : Bool :=
  c = ' ' ∨ c = '\t' ∨ c = '\n' ∨ c = '\r' ∨ c = Char.ofNat 11 ∨ c = Char.ofNat 12

/-- bytes.rstrip() as used by the pwm_enable getter (line 109): drop the
trailing whitespace characters. -/
def pyRstrip (s : String) : String :=
  ⟨(s.data.reverse.dropWhile isPySpace).reverse⟩

/-- The controller state __init__ builds (lines 63-91): the resolved curve
parameters, the two deltas computed once, the turned_off hysteresis latch
and the snapshot of the pre-override pwm1_enable mode. -/
structure FanController where
  pwm_min : ℚ
  pwm_max : ℚ
  temp_min : ℚ
  temp_max : ℚ
  semi_passive : Bool
  semi_passive_hyst : ℚ
  curve_pow : ℚ
  pwm_delta : ℚ
  temp_delta : ℚ
  turned_off : Bool
  prev_pwm_enable : Option String
deriving DecidableEq

/-- FanController.__init__ (lines 54-93). getsysfs reads a sysfs default and
falls back to the hardcoded default when the read fails (the exception is
caught, lines 55-61), so construction never fails: there is no validation
of the resolved parameters. -/
def FanController.init (sysfs : String → Option ℚ) (config : DeviceConfig) :
    FanController :=
  let getsysfs := fun (key : String) (dflt : ℚ) => (sysfs key).getD dflt
  let pwm_min := match config.fan_pwm_min with
    | none => getsysfs "pwm1_min" 0
    | some v => v
  let pwm_max := match config.fan_pwm_max with
    | none => getsysfs "pwm1_max" 255
    | some v => v
  let temp_max := match config.temp_max with
    | none => getsysfs "temp1_crit" 90000 / 1000 - 5
    | some v => v
  { pwm_min := pwm_min
    pwm_max := pwm_max
    temp_min := config.temp_min
    temp_max := temp_max
    semi_passive := config.fan_semi_passive
    semi_passive_hyst := config.fan_semi_passive_hyst
    curve_pow := config.fan_curve_pow
    pwm_delta := pwm_max - pwm_min
    temp_delta := temp_max - config.temp_min
    turned_off := false
    prev_pwm_enable := none }

/-- What one update tick reads from sysfs: the sampled temperature
(temp1_input / 1000) and the current pwm1_enable contents. -/
structure TickEnv where
  temp : ℚ
  pwm_enable : String
deriving DecidableEq

/-- What one update tick writes: the pwm1 value (the pwm setter writes
str(int(value)), line 105) and the pwm1_enable value, when written. -/
structure TickOut where
  pwm_write : Option ℤ
  pwm_enable_write : Option String
deriving DecidableEq

/-- The one exception update can raise in this model: ZeroDivisionError from
line 132 when temp_delta == 0.0. -/
inductive UpdateError where
  | zeroDivision
deriving DecidableEq

/-- Python's int() on a float: truncation toward zero. -/
noncomputable def float_to_int (x : ℝ) : ℤ :=
  if 0 ≤ x then ⌊x⌋ else ⌈x⌉

/-- The active-branch curve (lines 132-133): temp_fraction is clamped in ℚ
exactly as written, pow is float pow, modelled by Real.rpow. -/
noncomputable def FanController.curve_output (fan : FanController) (t : ℚ) : ℝ :=
  let temp_fraction : ℚ := min 1 (max 0 (t - fan.temp_min) / fan.temp_delta)
  (fan.pwm_min : ℝ) + (fan.pwm_delta : ℝ) * (temp_fraction : ℝ) ^ (fan.curve_pow : ℝ)

/-- Lines 116-120 of update: when the rstripped pwm1_enable contents are not
b'1', the current mode is snapshotted into prev_pwm_enable (and pwm1_enable
is then overridden to b'1', recorded by update in TickOut). -/
def FanController.snapshotEnable (fan : FanController) (cur : String) :
    FanController :=
  if cur ≠ "1" then { fan with prev_pwm_enable := some cur } else fan

/-- FanController.update (lines 115-133), one tick: snapshot and override
pwm1_enable when it is not already manual (rstripped contents compared with
b'1'), then the semi-passive branch, the hysteresis branch, and the active
branch, which clears the latch and raises ZeroDivisionError when
temp_delta == 0.0. A Python exception does not undo the mutations already
made, so the error carries the controller as the raise leaves it (the
prev_pwm_enable snapshot of lines 117-118 and turned_off := False from
line 131, which runs before the division of line 132) together with the
writes already performed (the pwm1_enable override of line 119; no pwm1
write, since line 133 is not reached). The three self.temp reads of one
tick are modelled as the one sampled value env.temp. -/
noncomputable def FanController.update (fan : FanController) (env : TickEnv) :
    Except (UpdateError × FanController × TickOut) (FanController × TickOut) :=
  let cur_pwm_enable := pyRstrip env.pwm_enable
  let fan0 := fan.snapshotEnable cur_pwm_enable
  let enable_write : Option String :=
    if cur_pwm_enable ≠ "1" then some "1" else none
  if fan0.semi_passive ∧ env.temp < fan0.temp_min then
    .ok ({ fan0 with turned_off := true }, ⟨some 0, enable_write⟩)
  else if fan0.turned_off ∧ env.temp < fan0.temp_min + fan0.semi_passive_hyst then
    .ok (fan0, ⟨some 0, enable_write⟩)
  else if fan0.temp_delta = 0 then
    .error (.zeroDivision, { fan0 with turned_off := false },
            ⟨none, enable_write⟩)
  else
    .ok ({ fan0 with turned_off := false },
         ⟨some (float_to_int (fan0.curve_output env.temp)), enable_write⟩)

/-- FanController.restore_pwm_enable (lines 135-137): the value written back
to pwm1_enable, or none when no snapshot was ever taken. -/
def FanController.restore_pwm_enable (fan : FanController) : Option String :=
  fan.prev_pwm_enable

/-- A sequence of update ticks on one controller, stopping at the first
uncaught exception (used where no exception occurs). -/
noncomputable def FanController.runTicks (fan : FanController) :
    List TickEnv →
      Except (UpdateError × FanController × TickOut) (FanController × List TickOut)
  | [] => .ok (fan, [])
  | env :: rest =>
    match fan.update env with
    | .error e => .error e
    | .ok (fan2, out) =>
      match fan2.runTicks rest with
      | .error e => .error e
      | .ok (fan3, outs) => .ok (fan3, out :: outs)

/-- The per-controller try/except inside update_loop's tick (lines 250-254):
the exception is logged and swallowed, and the controller object keeps the
mutations made before the raise (the state the error carries). -/
noncomputable def try_update (fe : FanController × TickEnv) : FanController :=
  match fe.1.update fe.2 with
  | .ok (fan2, _) => fan2
  | .error (_, fan2, _) => fan2

/-- One tick of update_loop (lines 250-254): the for loop over
fan_controllers with the try/except at the scope of each controller. -/
noncomputable def run_tick : List (FanController × TickEnv) → List FanController
  | [] => []
  | fe :: rest => try_update fe :: run_tick rest

/-! ## Concrete fixtures used by the counterexamples and witnesses -/

/-- A discovered device whose PCI_ID property is 1002:1234 and whose other
identification attributes are absent. -/
def exampleDevice : DeviceData :=
  ⟨some "1002:1234", none, none, none, none⟩

/-- A broad config section: no identification keys at all, all tuning
defaults. -/
def broadConfig : DeviceConfig :=
  ⟨"broad", none, none, none, none, none, false, none, none, 40, none, 2,
   false, 5, none⟩

/-- A narrow config section declared after broadConfig, specifying exactly
pci_id = 1002:1234. -/
def narrowConfig : DeviceConfig :=
  ⟨"narrow", none, none, some "1002:1234", none, none, false, none, none, 40,
   none, 2, false, 5, none⟩

/-- A sysfs where every default read fails (getsysfs falls back to the
hardcoded defaults). -/
def noSysfs : String → Option ℚ := fun _ => none

/-- A config whose resolved parameters violate the curve invariant:
temp_max == temp_min == 40. -/
def degenerateConfig : DeviceConfig :=
  ⟨"degenerate", none, none, none, none, none, true, some 0, some 255, 40,
   some 40, 2, false, 5, none⟩

/-- The controller of the spec's end-to-end example: temp_min=40,
temp_max=90, pwm_min=0, pwm_max=255, curve_pow=2, semi_passive off. -/
def curveFan : FanController :=
  ⟨0, 255, 40, 90, false, 5, 2, 255, 50, false, none⟩

/-- The same curve but with curve_pow = 0. -/
def stepFan : FanController :=
  ⟨0, 255, 40, 90, false, 5, 0, 255, 50, false, none⟩

/-- A semi-passive controller whose turned_off latch is set
(state PASSIVE_OFF). -/
def hystFan : FanController :=
  ⟨0, 255, 40, 90, true, 5, 2, 255, 50, true, none⟩

/-- A controller with temp_delta == 0 (built exactly like
FanController.init on degenerateConfig). -/
def brokenFan : FanController :=
  ⟨0, 255, 40, 40, false, 5, 2, 255, 0, false, none⟩

/-- A semi-passive controller that has not yet overridden pwm1_enable. -/
def passiveFan : FanController :=
  ⟨0, 255, 40, 90, true, 5, 2, 255, 50, false, none⟩

/-- A config section with a malformed power_cap value. -/
def badSection : ConfigSection :=
  ⟨"gpu0", [("power_cap", "abc")]⟩

/-- A config section with no options: every field parses to its default. -/
def goodSection : ConfigSection :=
  ⟨"gpu1", []⟩

/-- What parse_device_config yields on goodSection. -/
def goodSectionConfig : DeviceConfig :=
  ⟨"gpu1", none, none, none, none, none, false, none, none, 40, none, 2,
   false, 5, none⟩

/-- A sysfs with one readable file, power1_cap, holding its original value. -/
def ledgerSysfs : Sysfs :=
  ⟨fun q => if q = "power1_cap" then some "280" else none⟩

/-! ## Theorems: device matching (C5, C6) -/

theorem matchGo_eq (l : List (Option String × Option String)) (s : ℤ) :
    matchGo l s =
      if l.any pairMismatch then -1
      else s + (l.countP (fun p => p.2.isSome) : ℤ) := by
  induction l generalizing s with
  | nil => simp [matchGo]
  | cons p rest ih =>
    obtain ⟨value, config_value⟩ := p
    cases config_value with
    | none =>
      simp only [matchGo, ih, List.any_cons, List.countP_cons, pairMismatch,
        Option.isSome_none, Bool.false_and, Bool.false_or]
      simp
    | some w =>
      by_cases h : value = some w
      · subst h
        simp only [matchGo, ih, List.any_cons, List.countP_cons, pairMismatch,
          Option.isSome_some, Bool.true_and, bne_self_eq_false, Bool.false_or,
          eq_self_iff_true, if_true]
        split_ifs with hrest
        · rfl
        · push_cast
          omega
      · simp only [matchGo, if_neg h, List.any_cons, pairMismatch,
          Option.isSome_some, Bool.true_and]
        rw [if_pos]
        simp [bne_iff_ne, h]

theorem specHasMismatch_false_of_unspecified (d : DeviceData) (c : DeviceConfig)
    (h : specCountSpecified c = 0) : specHasMismatch d c = false := by
  obtain ⟨nm, dev, vb, pid, psn, psi, rest⟩ := c
  cases dev <;> cases vb <;> cases pid <;> cases psn <;> cases psi <;>
    simp_all [specCountSpecified, specHasMismatch, pairMismatch,
      DeviceData.pairs]

/-- C5. DeviceMatchingInfo.match returns -1 exactly when the candidate
specifies an identification attribute whose value differs from the device's
value; unspecified attributes contribute nothing; otherwise the score is the
number of specified (hence equal) attributes. A candidate specifying no
identification attribute therefore scores 0 against every device. -/
theorem C5_match_score (d : DeviceData) (c : DeviceConfig) :
    d.matchScore c = (if specHasMismatch d c then -1 else specCountSpecified c)
    ∧ (specCountSpecified c = 0 → d.matchScore c = 0) := by
  have hmain : d.matchScore c =
      (if specHasMismatch d c then -1 else specCountSpecified c) := by
    rw [DeviceData.matchScore, matchGo_eq, specHasMismatch]
    split_ifs with h
    · rfl
    · simp [specCountSpecified, DeviceData.pairs, List.countP_cons]
  refine ⟨hmain, fun h0 => ?_⟩
  rw [hmain, specHasMismatch_false_of_unspecified d c h0, h0]
  simp

theorem specBestMatch_score_ge (d : DeviceData) (cs : List DeviceConfig) :
    -1 ≤ (specBestMatch d cs).2 := by
  induction cs with
  | nil => simp [specBestMatch]
  | cons c rest ih =>
    simp only [specBestMatch]
    split_ifs with h
    · linarith [h.1]
    · exact ih

theorem best_match_foldl_from (d : DeviceData) (cs : List DeviceConfig)
    (c0 : DeviceConfig) (s0 : ℤ) (h0 : 0 ≤ s0) :
    cs.foldl (bestStep d) (some c0, s0) =
    if (specBestMatch d cs).2 ≤ s0 then (some c0, s0) else specBestMatch d cs := by
  induction cs generalizing c0 s0 with
  | nil =>
    rw [List.foldl_nil, if_pos]
    show (specBestMatch d []).2 ≤ s0
    simp only [specBestMatch]
    linarith
  | cons c rest ih =>
    simp only [List.foldl_cons, bestStep, specBestMatch]
    by_cases hs : d.matchScore c > s0
    · rw [if_pos hs, ih c (d.matchScore c) (by linarith)]
      split_ifs <;> first | rfl | (exfalso; omega)
    · rw [if_neg hs, ih c0 s0 h0]
      split_ifs <;> first | rfl | (exfalso; omega)

theorem best_match_eq_spec (d : DeviceData) (cs : List DeviceConfig) :
    d.best_match cs = specBestMatch d cs := by
  induction cs with
  | nil => rfl
  | cons c rest ih =>
    rw [DeviceData.best_match, List.foldl_cons]
    by_cases hs : 0 ≤ d.matchScore c
    · rw [show bestStep d (none, -1) c = (some c, d.matchScore c) from
        if_pos (by omega)]
      rw [best_match_foldl_from d rest c (d.matchScore c) hs]
      simp only [specBestMatch]
      split_ifs <;> first | rfl | (exfalso; omega)
    · rw [show bestStep d (none, -1) c = (none, -1) from if_neg (by omega)]
      rw [show rest.foldl (bestStep d) ((none : Option DeviceConfig), (-1 : ℤ)) =
        d.best_match rest from rfl, ih]
      simp only [specBestMatch]
      rw [if_neg (by intro hc; omega)]

theorem specBestMatch_sound (d : DeviceData) (cs : List DeviceConfig) :
    ∀ c s, specBestMatch d cs = (some c, s) →
      c ∈ cs ∧ d.matchScore c = s ∧ 0 ≤ s := by
  induction cs with
  | nil => intro c s h; simp [specBestMatch] at h
  | cons c0 rest ih =>
    intro c s h
    simp only [specBestMatch] at h
    split_ifs at h with hc
    · rw [Prod.mk.injEq] at h
      obtain ⟨h1, h2⟩ := h
      obtain rfl : c0 = c := by simpa using h1
      exact ⟨List.mem_cons_self _ _, h2, h2 ▸ hc.1⟩
    · obtain ⟨hm, hs, hge⟩ := ih c s h
      exact ⟨List.mem_cons_of_mem _ hm, hs, hge⟩

theorem specBestMatch_le (d : DeviceData) (cs : List DeviceConfig) :
    ∀ c ∈ cs, d.matchScore c ≤ (specBestMatch d cs).2 := by
  induction cs with
  | nil => simp
  | cons c0 rest ih =>
    intro c hmem
    rcases List.mem_cons.mp hmem with rfl | hmem
    · simp only [specBestMatch]
      split_ifs with hc
      · simp
      · push_neg at hc
        by_cases hge : 0 ≤ d.matchScore c
        · exact le_of_lt (hc hge)
        · push_neg at hge
          calc d.matchScore c ≤ -1 := by linarith
            _ ≤ _ := specBestMatch_score_ge d rest
    · simp only [specBestMatch]
      split_ifs with hc
      · exact le_trans (ih c hmem) hc.2
      · exact ih c hmem

theorem specBestMatch_none (d : DeviceData) (cs : List DeviceConfig)
    (h : ∀ c ∈ cs, d.matchScore c < 0) : specBestMatch d cs = (none, -1) := by
  induction cs with
  | nil => rfl
  | cons c rest ih =>
    simp only [specBestMatch]
    rw [if_neg (by intro hc; exact absurd hc.1 (by simpa using h c (by simp)))]
    exact ih (fun c hm => h c (List.mem_cons_of_mem _ hm))

/-- C6. best_match equals the spec's selection rule (first candidate whose
score is non-negative and at least every later candidate's score); any
returned candidate is in the list, with its own non-negative score; the
returned score bounds every candidate's score; if every candidate scores
below 0 the result is (None, -1); and in particular a narrow section
declared second (one matching key, score 1) beats an earlier empty section
(score 0). -/
theorem C6_best_match :
    (∀ (d : DeviceData) (cs : List DeviceConfig),
      d.best_match cs = specBestMatch d cs
      ∧ (∀ c s, d.best_match cs = (some c, s) →
          c ∈ cs ∧ d.matchScore c = s ∧ 0 ≤ s)
      ∧ (∀ c ∈ cs, d.matchScore c ≤ (d.best_match cs).2)
      ∧ ((∀ c ∈ cs, d.matchScore c < 0) → d.best_match cs = (none, -1)))
    ∧ exampleDevice.best_match [broadConfig, narrowConfig] =
        (some narrowConfig, 1) := by
  refine ⟨fun d cs => ⟨best_match_eq_spec d cs, ?_, ?_, ?_⟩, ?_⟩
  · intro c s h
    exact specBestMatch_sound d cs c s (best_match_eq_spec d cs ▸ h)
  · intro c hmem
    rw [best_match_eq_spec d cs]
    exact specBestMatch_le d cs c hmem
  · intro h
    rw [best_match_eq_spec d cs]
    exact specBestMatch_none d cs h
  · decide

/-! ## Theorems: the override ledger (C7) -/

theorem lookup_append_of_some (l l2 : List (String × String)) (p : String)
    (v : String) (h : l.lookup p = some v) : (l ++ l2).lookup p = some v := by
  induction l with
  | nil => simp [List.lookup] at h
  | cons kv rest ih =>
    obtain ⟨k, u⟩ := kv
    cases hk : (p == k) <;>
      simp only [List.lookup, List.cons_append, hk] at h ⊢
    · exact ih h
    · exact h

theorem lookup_append_of_none (l l2 : List (String × String)) (p : String)
    (h : l.lookup p = none) : (l ++ l2).lookup p = l2.lookup p := by
  induction l with
  | nil => simp
  | cons kv rest ih =>
    obtain ⟨k, u⟩ := kv
    cases hk : (p == k) <;>
      simp only [List.lookup, List.cons_append, hk] at h ⊢
    · exact ih h
    · exact absurd h (by simp)

theorem not_mem_keys_of_lookup_none (l : List (String × String)) (p : String)
    (h : l.lookup p = none) : p ∉ l.map Prod.fst := by
  induction l with
  | nil => simp
  | cons kv rest ih =>
    obtain ⟨k, u⟩ := kv
    cases hk : (p == k) <;> simp only [List.lookup, hk] at h
    · simp only [List.map_cons, List.mem_cons, not_or]
      exact ⟨by simpa using hk, ih h⟩
    · exact absurd h (by simp)

theorem rollback_fold_not_mem (l : List (String × String)) (w : Sysfs)
    (p : String) (h : ∀ kv ∈ l, kv.1 ≠ p) :
    (l.foldl (fun w kv => w.writeFile kv.1 kv.2) w).files p = w.files p := by
  induction l generalizing w with
  | nil => rfl
  | cons kv rest ih =>
    rw [List.foldl_cons, ih _ (fun kv hm => h kv (List.mem_cons_of_mem _ hm))]
    simp only [Sysfs.writeFile]
    rw [if_neg (fun hp => h kv (List.mem_cons_self _ _) hp.symm)]

theorem rollback_fold_mem (l : List (String × String)) (w : Sysfs)
    (p v : String) (hmem : (p, v) ∈ l) (hnd : (l.map Prod.fst).Nodup) :
    (l.foldl (fun w kv => w.writeFile kv.1 kv.2) w).files p = some v := by
  induction l generalizing w with
  | nil => simp at hmem
  | cons kv rest ih =>
    obtain ⟨k, u⟩ := kv
    simp only [List.map_cons, List.nodup_cons] at hnd
    rcases List.mem_cons.mp hmem with heq | hmem2
    · rw [Prod.mk.injEq] at heq
      obtain ⟨rfl, rfl⟩ := heq
      rw [List.foldl_cons, rollback_fold_not_mem]
      · simp [Sysfs.writeFile]
      · intro kv hm hp2
        exact hnd.1 (hp2 ▸ List.mem_map_of_mem Prod.fst hm)
    · rw [List.foldl_cons]
      exact ih _ hmem2 hnd.2

theorem setItems_steady (key : String) (values : List String) :
    ∀ (st : Sysfs × SysfsOverride) (v0 u : String),
      st.2.prev_values.lookup key = some v0 → st.1.files key = some u →
      (SysfsOverride.setItems st key values).2 = st.2
      ∧ (SysfsOverride.setItems st key values).1.files key =
          some (values.getLastD u) := by
  induction values with
  | nil => intro st v0 u h1 h2; exact ⟨rfl, by simpa using h2⟩
  | cons v rest ih =>
    intro st v0 u h1 h2
    have hstep : SysfsOverride.setItem st key v = (st.1.writeFile key v, st.2) := by
      rw [SysfsOverride.setItem, h1]
    have hfiles : (st.1.writeFile key v).files key = some v := by
      simp [Sysfs.writeFile]
    have := ih (st.1.writeFile key v, st.2) v0 v h1 hfiles
    rw [SysfsOverride.setItems, List.foldl_cons, hstep]
    rw [SysfsOverride.setItems] at this
    exact ⟨this.1, by rw [this.2, List.getLastD_cons]⟩

/-- C7. For N >= 1 writes to the same path through one ledger instance,
the path's original value is recorded only on the first write and never
overwritten, rollback() restores the value read before the first write
(not any intermediate value), while the file itself ends at the last
written value. -/
theorem C7_first_write_wins (w : Sysfs) (ov : SysfsOverride) (p v0 v1 : String)
    (rest : List String)
    (hfile : w.files p = some v0)
    (hnew : ov.prev_values.lookup p = none)
    (hnd : (ov.prev_values.map Prod.fst).Nodup) :
    (SysfsOverride.setItems (w, ov) p (v1 :: rest)).2.prev_values.lookup p = some v0
    ∧ (SysfsOverride.rollback
        (SysfsOverride.setItems (w, ov) p (v1 :: rest))).files p = some v0
    ∧ (SysfsOverride.setItems (w, ov) p (v1 :: rest)).1.files p =
        some (rest.getLastD v1) := by
  have hstep : SysfsOverride.setItem (w, ov) p v1 =
      (w.writeFile p v1, ⟨ov.prev_values ++ [(p, v0)]⟩) := by
    rw [SysfsOverride.setItem]
    simp only [hnew, hfile]
  have hlook1 : (ov.prev_values ++ [(p, v0)]).lookup p = some v0 := by
    rw [lookup_append_of_none _ _ _ hnew]
    simp [List.lookup]
  have hfiles1 : (w.writeFile p v1).files p = some v1 := by
    simp [Sysfs.writeFile]
  have hsteady := setItems_steady p rest
    (w.writeFile p v1, ⟨ov.prev_values ++ [(p, v0)]⟩) v0 v1 hlook1 hfiles1
  have hsplit : SysfsOverride.setItems (w, ov) p (v1 :: rest) =
      SysfsOverride.setItems (w.writeFile p v1, ⟨ov.prev_values ++ [(p, v0)]⟩)
        p rest := by
    rw [SysfsOverride.setItems, List.foldl_cons, hstep, SysfsOverride.setItems]
  have hndapp : ((ov.prev_values ++ [(p, v0)]).map Prod.fst).Nodup := by
    rw [List.map_append, List.nodup_append]
    refine ⟨hnd, by simp, ?_⟩
    intro q hq hq2
    simp only [List.map_cons, List.map_nil, List.mem_singleton] at hq2
    exact not_mem_keys_of_lookup_none _ _ hnew (hq2 ▸ hq)
  refine ⟨?_, ?_, ?_⟩
  · rw [hsplit, hsteady.1]
    exact hlook1
  · rw [SysfsOverride.rollback, hsplit, hsteady.1]
    exact rollback_fold_mem _ _ _ _ (by simp) hndapp
  · rw [hsplit]
    exact hsteady.2

/-- Witness for C7: two writes (120 then 150) to power1_cap through a fresh
ledger; the recorded original is 280, rollback restores 280, the file ends
at 150. -/
theorem C7_first_write_wins_witness :
    (SysfsOverride.setItems (ledgerSysfs, ⟨[]⟩) "power1_cap"
        ["120", "150"]).2.prev_values.lookup "power1_cap" = some "280"
    ∧ (SysfsOverride.rollback
        (SysfsOverride.setItems (ledgerSysfs, ⟨[]⟩) "power1_cap"
          ["120", "150"])).files "power1_cap" = some "280"
    ∧ (SysfsOverride.setItems (ledgerSysfs, ⟨[]⟩) "power1_cap"
        ["120", "150"]).1.files "power1_cap" = some (["150"].getLastD "120") :=
  C7_first_write_wins ledgerSysfs ⟨[]⟩ "power1_cap" "280" "120" ["150"]
    (by simp [ledgerSysfs]) rfl (by simp)

/-! ## Theorems: config parsing (C8) -/

/-- Counterexample for C8: a malformed power_cap in the first section makes
main's whole config processing fail, even though the second section on its
own parses fine; the claim that parsing still succeeds for the remaining
sections is false. -/
theorem C8_counterexample :
    parse_all_sections [badSection, goodSection] = .error "power_cap in gpu0"
    ∧ parse_device_config goodSection = .ok goodSectionConfig := ⟨rfl, rfl⟩

/-- C8 amended: a malformed option value is fatal for its section's parse
and the resulting error propagates through main's list comprehension, so
the whole configuration parse fails no matter how many other sections would
have parsed.  -/
theorem C8_amended (pre post : List ConfigSection) (bad : ConfigSection)
    (e : String)
    (hbad : parse_device_config bad = .error e)
    (hpre : ∀ s ∈ pre, ∃ c, parse_device_config s = .ok c) :
    parse_all_sections (pre ++ bad :: post) = .error e := by
  induction pre with
  | nil =>
    simp only [List.nil_append, parse_all_sections, hbad]
    rfl
  | cons s pre ih =>
    obtain ⟨c, hc⟩ := hpre s (by simp)
    have ih2 : parse_all_sections (pre.append (bad :: post)) = .error e :=
      ih (fun t hm => hpre t (List.mem_cons_of_mem _ hm))
    simp only [List.cons_append, parse_all_sections, hc, ih2]
    rfl

/-- Witness for C8 amended: a good section followed by a section with a
malformed power_cap; the whole parse errors. -/
theorem C8_amended_witness :
    parse_all_sections ([goodSection] ++ badSection :: []) =
      .error "power_cap in gpu0" :=
  C8_amended [goodSection] [] badSection "power_cap in gpu0" rfl
    (fun s hm => by
      rw [List.mem_singleton] at hm
      exact ⟨goodSectionConfig, hm ▸ rfl⟩)

/-! ## Theorems: the fan controller (C1, C2, C3, C4, C9, C10) -/

theorem pyRstrip_one : pyRstrip "1" = "1" := by decide

theorem pyRstrip_one_nl : pyRstrip "1\n" = "1" := by decide

theorem pyRstrip_two_nl : pyRstrip "2\n" = "2" := by decide

theorem snapshotEnable_pwm_min (fan : FanController) (c : String) :
    (fan.snapshotEnable c).pwm_min = fan.pwm_min := by
  rw [FanController.snapshotEnable]; split_ifs <;> rfl

theorem snapshotEnable_pwm_delta (fan : FanController) (c : String) :
    (fan.snapshotEnable c).pwm_delta = fan.pwm_delta := by
  rw [FanController.snapshotEnable]; split_ifs <;> rfl

theorem snapshotEnable_temp_min (fan : FanController) (c : String) :
    (fan.snapshotEnable c).temp_min = fan.temp_min := by
  rw [FanController.snapshotEnable]; split_ifs <;> rfl

theorem snapshotEnable_temp_delta (fan : FanController) (c : String) :
    (fan.snapshotEnable c).temp_delta = fan.temp_delta := by
  rw [FanController.snapshotEnable]; split_ifs <;> rfl

theorem snapshotEnable_semi_passive (fan : FanController) (c : String) :
    (fan.snapshotEnable c).semi_passive = fan.semi_passive := by
  rw [FanController.snapshotEnable]; split_ifs <;> rfl

theorem snapshotEnable_semi_passive_hyst (fan : FanController) (c : String) :
    (fan.snapshotEnable c).semi_passive_hyst = fan.semi_passive_hyst := by
  rw [FanController.snapshotEnable]; split_ifs <;> rfl

theorem snapshotEnable_curve_pow (fan : FanController) (c : String) :
    (fan.snapshotEnable c).curve_pow = fan.curve_pow := by
  rw [FanController.snapshotEnable]; split_ifs <;> rfl

theorem snapshotEnable_turned_off (fan : FanController) (c : String) :
    (fan.snapshotEnable c).turned_off = fan.turned_off := by
  rw [FanController.snapshotEnable]; split_ifs <;> rfl

theorem snapshotEnable_one (fan : FanController) :
    fan.snapshotEnable "1" = fan := by
  rw [FanController.snapshotEnable, if_neg (by simp)]

theorem init_semi_passive (sysfs : String → Option ℚ) (config : DeviceConfig) :
    (FanController.init sysfs config).semi_passive = config.fan_semi_passive := rfl

theorem init_temp_min (sysfs : String → Option ℚ) (config : DeviceConfig) :
    (FanController.init sysfs config).temp_min = config.temp_min := rfl

theorem init_turned_off (sysfs : String → Option ℚ) (config : DeviceConfig) :
    (FanController.init sysfs config).turned_off = false := rfl

/-- Counterexample for C1: FanController.__init__ performs no validation.
degenerateConfig resolves to pwm_min=0, pwm_max=255, temp_min=temp_max=40
(so temp_delta = 0), yet construction succeeds, producing the controller
brokenFan, and it is that controller's first active-branch update that
raises ZeroDivisionError -- construction itself never fails. -/
theorem C1_counterexample :
    FanController.init noSysfs degenerateConfig = brokenFan
    ∧ brokenFan.temp_delta = 0
    ∧ FanController.update brokenFan ⟨50, "1"⟩ =
        .error (.zeroDivision, brokenFan, ⟨none, none⟩) := by
  refine ⟨?_, rfl, ?_⟩
  · norm_num [FanController.init, degenerateConfig, brokenFan]
  · norm_num [FanController.update, FanController.snapshotEnable,
      pyRstrip_one, brokenFan]

/-- C1 amended: __init__ does not validate the curve invariant and never
fails; when the resolved parameters give temp_delta = 0, the division by
zero instead happens at tick time: any update that reaches the active
branch (the controller starts with the latch clear, so any tick not taken
by the semi-passive branch) raises ZeroDivisionError, which update_loop
catches per controller, leaving the controller with the mutations made
before the raise (the enable snapshot and the cleared latch) and only the
pwm1_enable write performed. -/
theorem C1_amended (sysfs : String → Option ℚ) (config : DeviceConfig)
    (env : TickEnv)
    (hdelta : (FanController.init sysfs config).temp_delta = 0)
    (hactive : ¬(config.fan_semi_passive = true ∧ env.temp < config.temp_min)) :
    FanController.update (FanController.init sysfs config) env =
      .error (.zeroDivision,
        { (FanController.init sysfs config).snapshotEnable
            (pyRstrip env.pwm_enable) with turned_off := false },
        ⟨none, if pyRstrip env.pwm_enable ≠ "1" then some "1" else none⟩) := by
  simp only [FanController.update, snapshotEnable_semi_passive,
    snapshotEnable_temp_min, snapshotEnable_turned_off,
    snapshotEnable_semi_passive_hyst, snapshotEnable_temp_delta,
    init_semi_passive, init_temp_min, init_turned_off]
  rw [if_neg hactive, if_neg (by simp), if_pos hdelta]

/-- Witness for C1 amended: the degenerate config constructs, and the first
tick at 50 degrees raises ZeroDivisionError, leaving the controller state
carried by the exception. -/
theorem C1_amended_witness :
    FanController.update (FanController.init noSysfs degenerateConfig)
      ⟨50, "1"⟩ =
      .error (.zeroDivision,
        { (FanController.init noSysfs degenerateConfig).snapshotEnable
            (pyRstrip (⟨50, "1"⟩ : TickEnv).pwm_enable) with turned_off := false },
        ⟨none, if pyRstrip (⟨50, "1"⟩ : TickEnv).pwm_enable ≠ "1"
               then some "1" else none⟩) :=
  C1_amended noSysfs degenerateConfig ⟨50, "1"⟩
    (by norm_num [FanController.init, degenerateConfig])
    (by norm_num [degenerateConfig])

/-- Counterexample for C2: with curve_pow = 0 (allowed by the claim's
curve_pow >= 0) and the otherwise-valid parameters of stepFan
(temp_min=40 < temp_max=90, pwm_min=0 < pwm_max=255), the active-branch
output at t = temp_min is pwm_min + pwm_delta * 0^0 = 255, not
pwm_min = 0: Python's pow(0.0, 0.0) is 1.0. -/
theorem C2_counterexample :
    stepFan.temp_min < stepFan.temp_max
    ∧ stepFan.pwm_min < stepFan.pwm_max
    ∧ 0 ≤ stepFan.curve_pow
    ∧ stepFan.curve_output stepFan.temp_min = 255
    ∧ (stepFan.pwm_min : ℝ) = 0 := by
  refine ⟨by norm_num [stepFan], by norm_num [stepFan], by norm_num [stepFan],
    ?_, by norm_num [stepFan]⟩
  norm_num [FanController.curve_output, stepFan, Real.rpow_zero]
/-- C2 amended: for temp_max > temp_min, pwm_max > pwm_min (with the deltas
as __init__ computes them) and curve_pow >= 0, the active-branch output is
monotonically non-decreasing in the temperature and equals pwm_max at
t = temp_max; it equals pwm_min at t = temp_min provided curve_pow is not
zero (pow(0.0, 0.0) == 1.0 makes the output pwm_max there otherwise). -/
theorem C2_amended (fan : FanController)
    (hT : fan.temp_min < fan.temp_max)
    (hP : fan.pwm_min < fan.pwm_max)
    (hdT : fan.temp_delta = fan.temp_max - fan.temp_min)
    (hdP : fan.pwm_delta = fan.pwm_max - fan.pwm_min)
    (hp : 0 ≤ fan.curve_pow) :
    (∀ t1 t2 : ℚ, t1 ≤ t2 → fan.curve_output t1 ≤ fan.curve_output t2)
    ∧ (fan.curve_pow ≠ 0 → fan.curve_output fan.temp_min = fan.pwm_min)
    ∧ fan.curve_output fan.temp_max = fan.pwm_max := by
  have hdTpos : 0 < fan.temp_delta := by rw [hdT]; linarith
  have hdPpos : 0 ≤ fan.pwm_delta := by rw [hdP]; linarith
  refine ⟨?_, ?_, ?_⟩
  · intro t1 t2 ht
    rw [FanController.curve_output, FanController.curve_output]
    have hf1 : (0:ℚ) ≤ min 1 (max 0 (t1 - fan.temp_min) / fan.temp_delta) :=
      le_min zero_le_one (div_nonneg (le_max_left 0 _) hdTpos.le)
    have hf12 : min 1 (max 0 (t1 - fan.temp_min) / fan.temp_delta) ≤
        min 1 (max 0 (t2 - fan.temp_min) / fan.temp_delta) :=
      min_le_min le_rfl
        (div_le_div_of_nonneg_right
          (max_le_max le_rfl (by linarith)) hdTpos.le)
    refine add_le_add_left (mul_le_mul_of_nonneg_left ?_ (by exact_mod_cast hdPpos)) _
    exact Real.rpow_le_rpow (by exact_mod_cast hf1) (by exact_mod_cast hf12)
      (by exact_mod_cast hp)
  · intro hp0
    rw [FanController.curve_output]
    have hfrac : min 1 (max 0 (fan.temp_min - fan.temp_min) / fan.temp_delta) = 0 := by
      rw [sub_self]
      simp
    rw [hfrac]
    push_cast
    rw [Real.zero_rpow (by exact_mod_cast hp0)]
    ring
  · rw [FanController.curve_output]
    have hfrac : min 1 (max 0 (fan.temp_max - fan.temp_min) / fan.temp_delta) = 1 := by
      rw [max_eq_right (by linarith), ← hdT, div_self hdTpos.ne']
      simp
    rw [hfrac]
    push_cast
    rw [Real.one_rpow]
    rw [hdP]
    push_cast
    ring

/-- Witness for C2 amended, at the spec's example parameters (curveFan). -/
theorem C2_amended_witness :
    (∀ t1 t2 : ℚ, t1 ≤ t2 →
      curveFan.curve_output t1 ≤ curveFan.curve_output t2)
    ∧ (curveFan.curve_pow ≠ 0 →
        curveFan.curve_output curveFan.temp_min = curveFan.pwm_min)
    ∧ curveFan.curve_output curveFan.temp_max = curveFan.pwm_max :=
  C2_amended curveFan (by norm_num [curveFan]) (by norm_num [curveFan])
    (by norm_num [curveFan]) (by norm_num [curveFan]) (by norm_num [curveFan])

theorem curveFan_at_65 : FanController.curve_output curveFan 65 = 255 / 4 := by
  norm_num [FanController.curve_output, curveFan]

theorem float_to_int_63 : float_to_int (255 / 4 : ℝ) = 63 := by
  rw [float_to_int, if_pos (by norm_num : (0:ℝ) ≤ 255 / 4)]
  rw [show (63 : ℤ) = ⌊(63.75 : ℝ)⌋ by norm_num [Int.floor_eq_iff]]
  norm_num

/-- C3. The spec's end-to-end example: temp_min=40, temp_max=90, pwm_min=0,
pwm_max=255, curve_pow=2, semi_passive off, pwm1_enable already manual;
a tick sampling 65 degrees writes exactly 63 to pwm1
(0 + 255 * ((65-40)/(90-40))^2 = 63.75, truncated by int()), leaves the
latch clear and writes nothing to pwm1_enable. -/
theorem C3_end_to_end :
    FanController.update curveFan ⟨65, "1"⟩ =
      .ok (curveFan, ⟨some 63, none⟩) := by
  norm_num [FanController.update, snapshotEnable_one, pyRstrip_one, curveFan]
  show float_to_int (FanController.curve_output curveFan 65) = 63
  rw [curveFan_at_65, float_to_int_63]
theorem update_passive_step (fan : FanController) (env : TickEnv)
    (hoff : fan.turned_off = true) (hsp : fan.semi_passive = true)
    (htemp : env.temp < fan.temp_min + fan.semi_passive_hyst) :
    ∃ fan2, fan.update env =
        .ok (fan2,
          ⟨some 0, if pyRstrip env.pwm_enable ≠ "1" then some "1" else none⟩)
      ∧ fan2.turned_off = true
      ∧ fan2.temp_min = fan.temp_min
      ∧ fan2.semi_passive = fan.semi_passive
      ∧ fan2.semi_passive_hyst = fan.semi_passive_hyst := by
  by_cases ht : env.temp < fan.temp_min
  · refine ⟨{ fan.snapshotEnable (pyRstrip env.pwm_enable) with
        turned_off := true }, ?_, rfl,
      by simp [snapshotEnable_temp_min],
      by simp [snapshotEnable_semi_passive],
      by simp [snapshotEnable_semi_passive_hyst]⟩
    simp only [FanController.update, snapshotEnable_semi_passive,
      snapshotEnable_temp_min]
    rw [if_pos ⟨hsp, ht⟩]
  · push_neg at ht
    refine ⟨fan.snapshotEnable (pyRstrip env.pwm_enable), ?_,
      by simp [snapshotEnable_turned_off, hoff],
      by simp [snapshotEnable_temp_min],
      by simp [snapshotEnable_semi_passive],
      by simp [snapshotEnable_semi_passive_hyst]⟩
    simp only [FanController.update, snapshotEnable_semi_passive,
      snapshotEnable_temp_min, snapshotEnable_turned_off,
      snapshotEnable_semi_passive_hyst]
    rw [if_neg (fun hc => absurd hc.2 (not_lt.mpr ht)), if_pos ⟨hoff, htemp⟩]

theorem runTicks_passive_hold (envs : List TickEnv) :
    ∀ fan : FanController, fan.turned_off = true → fan.semi_passive = true →
      (∀ e ∈ envs, e.temp < fan.temp_min + fan.semi_passive_hyst) →
      ∃ fan2 outs, fan.runTicks envs = .ok (fan2, outs)
        ∧ outs.length = envs.length
        ∧ (∀ o ∈ outs, o.pwm_write = some 0)
        ∧ fan2.turned_off = true := by
  induction envs with
  | nil =>
    intro fan hoff _ _
    exact ⟨fan, [], rfl, rfl, by simp, hoff⟩
  | cons e rest ih =>
    intro fan hoff hsp htemps
    obtain ⟨fanm, hupd, hto2, htm2, hsp2, hh2⟩ :=
      update_passive_step fan e hoff hsp (htemps e (List.mem_cons_self _ _))
    obtain ⟨fanf, outs, hrun, hlen, houts, hto3⟩ :=
      ih fanm hto2 (by rw [hsp2]; exact hsp)
        (fun e2 hm => by
          rw [htm2, hh2]; exact htemps e2 (List.mem_cons_of_mem _ hm))
    refine ⟨fanf,
      (⟨some 0, if pyRstrip e.pwm_enable ≠ "1" then some "1" else none⟩ :
        TickOut) :: outs, ?_, by simp [hlen], ?_, hto3⟩
    · simp only [FanController.runTicks, hupd, hrun]
    · intro o hm
      rcases List.mem_cons.mp hm with rfl | hm2
      · rfl
      · exact houts o hm2

/-- C4 (amended: the hold condition is strictly below the threshold, since
line 127 compares with <). Once the PASSIVE_OFF state is latched
(turned_off set on a semi-passive controller), every subsequent tick whose
sampled temperature stays below temp_min + semi_passive_hyst writes 0 and
keeps the latch set,
including ticks whose temperature exceeds temp_min without reaching the
hysteresis threshold; and a single update can clear the latch only by
taking the active branch, i.e. only when the temperature has reached
temp_min + semi_passive_hyst. -/
theorem C4_hysteresis (fan : FanController) (envs : List TickEnv)
    (hoff : fan.turned_off = true) (hsp : fan.semi_passive = true)
    (htemps : ∀ e ∈ envs, e.temp < fan.temp_min + fan.semi_passive_hyst) :
    (∃ fan2 outs, fan.runTicks envs = .ok (fan2, outs)
      ∧ outs.length = envs.length
      ∧ (∀ o ∈ outs, o.pwm_write = some 0)
      ∧ fan2.turned_off = true)
    ∧ ∀ env fan2 out, fan.update env = .ok (fan2, out) →
        fan2.turned_off = false →
        fan.temp_min + fan.semi_passive_hyst ≤ env.temp := by
  refine ⟨runTicks_passive_hold envs fan hoff hsp htemps, ?_⟩
  intro env fan2 out hupd hto
  by_contra hlt
  push_neg at hlt
  obtain ⟨fan2b, hupd2, hto2, _, _, _⟩ := update_passive_step fan env hoff hsp hlt
  rw [hupd] at hupd2
  have h := Except.ok.inj hupd2
  rw [Prod.mk.injEq] at h
  rw [h.1] at hto
  rw [hto2] at hto
  exact Bool.noConfusion hto

/-- Witness for C4: a latched semi-passive controller (hystFan,
temp_min=40, hyst=5) over two ticks at 42 then 38 degrees: both ticks
write 0 and the latch stays set, although 42 exceeds temp_min. -/
theorem C4_hysteresis_witness :
    (∃ fan2 outs,
      hystFan.runTicks [⟨42, "1"⟩, ⟨38, "1"⟩] = .ok (fan2, outs)
      ∧ outs.length = ([⟨42, "1"⟩, ⟨38, "1"⟩] : List TickEnv).length
      ∧ (∀ o ∈ outs, o.pwm_write = some 0)
      ∧ fan2.turned_off = true)
    ∧ ∀ env fan2 out, hystFan.update env = .ok (fan2, out) →
        fan2.turned_off = false →
        hystFan.temp_min + hystFan.semi_passive_hyst ≤ env.temp :=
  C4_hysteresis hystFan [⟨42, "1"⟩, ⟨38, "1"⟩] rfl rfl
    (by
      intro e hm
      rcases List.mem_cons.mp hm with rfl | hm2
      · norm_num [hystFan]
      · rcases List.mem_singleton.mp hm2 with rfl
        norm_num [hystFan])

theorem run_tick_eq_map (l : List (FanController × TickEnv)) :
    run_tick l = l.map try_update := by
  induction l with
  | nil => rfl
  | cons fe rest ih => rw [run_tick, ih, List.map_cons]

/-- C9. One tick of update_loop processes every controller: the loop is
elementwise, so a controller whose update raises has the exception caught
at its own scope -- it stays in the tick's result with exactly the state
the raise left it in (the partial mutations the exception carries) -- while
every other controller's outcome is exactly its own try_update result,
unaffected by the failure; run_tick is total, so the cycle continues to
the next tick. -/
theorem C9_error_isolated (l : List (FanController × TickEnv)) (i : ℕ)
    (e : UpdateError) (fanE : FanController) (outE : TickOut)
    (herr : (l[i]?).map (fun fe => fe.1.update fe.2) =
      some (.error (e, fanE, outE))) :
    (run_tick l).length = l.length
    ∧ (run_tick l)[i]? = some fanE
    ∧ ∀ j : ℕ, (run_tick l)[j]? = (l[j]?).map try_update := by
  refine ⟨by rw [run_tick_eq_map, List.length_map], ?_,
    fun j => by rw [run_tick_eq_map, List.getElem?_map]⟩
  rw [run_tick_eq_map, List.getElem?_map]
  cases hl : l[i]? with
  | none => rw [hl] at herr; exact absurd herr (by simp)
  | some fe =>
    rw [hl] at herr
    simp only [Option.map_some'] at herr ⊢
    have herr2 : fe.1.update fe.2 = .error (e, fanE, outE) :=
      Option.some.inj herr
    rw [try_update, herr2]

/-- Witness for C9: a tick over two controllers where the first
(brokenFan, temp_delta = 0, pwm1_enable already manual so the raise leaves
it unchanged) raises ZeroDivisionError at 50 degrees and the second
(curveFan at 65 degrees) is still updated. -/
theorem C9_error_isolated_witness :
    (run_tick [(brokenFan, ⟨50, "1"⟩), (curveFan, ⟨65, "1"⟩)]).length =
      ([(brokenFan, ⟨50, "1"⟩), (curveFan, ⟨65, "1"⟩)] :
        List (FanController × TickEnv)).length
    ∧ (run_tick [(brokenFan, ⟨50, "1"⟩), (curveFan, ⟨65, "1"⟩)])[0]? =
        some brokenFan
    ∧ ∀ j : ℕ,
        (run_tick [(brokenFan, ⟨50, "1"⟩), (curveFan, ⟨65, "1"⟩)])[j]? =
        (([(brokenFan, ⟨50, "1"⟩), (curveFan, ⟨65, "1"⟩)] :
          List (FanController × TickEnv))[j]?).map try_update :=
  C9_error_isolated [(brokenFan, ⟨50, "1"⟩), (curveFan, ⟨65, "1"⟩)] 0
    .zeroDivision brokenFan ⟨none, none⟩
    (by
      rw [show (([(brokenFan, ⟨50, "1"⟩), (curveFan, ⟨65, "1"⟩)] :
        List (FanController × TickEnv))[0]?) = some (brokenFan, ⟨50, "1"⟩)
        from rfl]
      rw [Option.map_some']
      rw [show FanController.update brokenFan ⟨50, "1"⟩ =
        .error (.zeroDivision, brokenFan, ⟨none, none⟩) from by
        norm_num [FanController.update, FanController.snapshotEnable,
          pyRstrip_one, brokenFan]])

theorem update_keeps_prev (fan : FanController) (env : TickEnv)
    (fan2 : FanController) (out : TickOut)
    (hone : pyRstrip env.pwm_enable = "1")
    (h : fan.update env = .ok (fan2, out)) :
    fan2.prev_pwm_enable = fan.prev_pwm_enable
    ∧ out.pwm_enable_write = none := by
  simp only [FanController.update, hone, snapshotEnable_one, ne_eq,
    not_true_eq_false, if_false] at h
  split_ifs at h <;>
    first
    | (injection h with h'
       injection h' with ha hb
       subst ha
       subst hb
       exact ⟨rfl, rfl⟩)
    | injection h

theorem runTicks_keeps_prev (envs : List TickEnv) :
    ∀ fan : FanController, (∀ e ∈ envs, pyRstrip e.pwm_enable = "1") →
      ∀ fan2 outs, fan.runTicks envs = .ok (fan2, outs) →
        fan2.prev_pwm_enable = fan.prev_pwm_enable
        ∧ ∀ o ∈ outs, o.pwm_enable_write = none := by
  induction envs with
  | nil =>
    intro fan _ fan2 outs h
    injection h with h'
    injection h' with ha hb
    subst ha
    subst hb
    exact ⟨rfl, by simp⟩
  | cons e rest ih =>
    intro fan hones fan2 outs h
    rw [FanController.runTicks] at h
    cases hu : fan.update e with
    | error err =>
      simp only [hu] at h
      injection h
    | ok p =>
      obtain ⟨fanm, out⟩ := p
      rw [hu] at h
      cases hr : fanm.runTicks rest with
      | error err =>
        simp only [hr] at h
        injection h
      | ok q =>
        obtain ⟨fanf, outsf⟩ := q
        simp only [hr] at h
        injection h with h'
        injection h' with ha hb
        subst ha
        subst hb
        have hkeep := update_keeps_prev fan e fanm out
          (hones e (List.mem_cons_self _ _)) hu
        have hrec := ih fanm
          (fun e2 hm => hones e2 (List.mem_cons_of_mem _ hm)) fanf outsf hr
        constructor
        · rw [hrec.1, hkeep.1]
        · intro o hm
          rcases List.mem_cons.mp hm with rfl | hm2
          · exact hkeep.2
          · exact hrec.2 o hm2

/-- C10. The actuator-enable mode that update compares, snapshots and later
restores is the rstripped pwm1_enable contents, not the raw bytes: a file
reading 2 plus newline is snapshotted and restored as the bare 2 (first
conjunct); a file reading 1 plus newline already counts as manual, so no
snapshot and no write happen (second conjunct); and over any run of ticks
whose pwm1_enable always strips to 1, prev_pwm_enable stays None and
restore_pwm_enable therefore writes nothing (third conjunct). -/
theorem C10_enable_rstrip :
    (∃ fan2, FanController.update passiveFan ⟨30, "2\n"⟩ =
        .ok (fan2, ⟨some 0, some "1"⟩)
      ∧ fan2.prev_pwm_enable = some "2"
      ∧ fan2.restore_pwm_enable = some "2")
    ∧ FanController.update passiveFan ⟨30, "1\n"⟩ =
        .ok ({ passiveFan with turned_off := true }, ⟨some 0, none⟩)
    ∧ (∀ (envs : List TickEnv) (fan : FanController),
        fan.prev_pwm_enable = none →
        (∀ e ∈ envs, pyRstrip e.pwm_enable = "1") →
        ∀ fan2 outs, fan.runTicks envs = .ok (fan2, outs) →
          fan2.prev_pwm_enable = none
          ∧ fan2.restore_pwm_enable = none
          ∧ ∀ o ∈ outs, o.pwm_enable_write = none) := by
  refine ⟨⟨{ passiveFan with prev_pwm_enable := some "2", turned_off := true },
      ?_, rfl, rfl⟩, ?_, ?_⟩
  · norm_num [FanController.update, FanController.snapshotEnable,
      pyRstrip_two_nl, passiveFan, show ("2" : String) ≠ "1" from by decide]
  · norm_num [FanController.update, snapshotEnable_one, pyRstrip_one_nl,
      passiveFan]
  · intro envs fan hprev hones fan2 outs h
    obtain ⟨h1, h2⟩ := runTicks_keeps_prev envs fan hones fan2 outs h
    refine ⟨by rw [h1, hprev], ?_, h2⟩
    rw [FanController.restore_pwm_enable, h1, hprev]

theorem hystFan_at_45 : FanController.curve_output hystFan 45 = 51 / 20 := by
  norm_num [FanController.curve_output, hystFan]

theorem float_to_int_2 : float_to_int (51 / 20 : ℝ) = 2 := by
  rw [float_to_int, if_pos (by norm_num : (0:ℝ) ≤ 51 / 20)]
  rw [show (2 : ℤ) = ⌊(2.55 : ℝ)⌋ by norm_num [Int.floor_eq_iff]]
  norm_num

/-- Counterexample for C4's boundary: hystFan is latched in PASSIVE_OFF
(turned_off set, semi-passive) and a tick samples exactly
temp_min + semi_passive_hyst = 45 degrees, a temperature that has NOT
exceeded the threshold; yet the hysteresis branch requires t < threshold,
so the tick takes the active branch, writes 2 (the curve value, not 0) and
clears the latch. -/
theorem C4_counterexample :
    hystFan.turned_off = true ∧ hystFan.semi_passive = true
    ∧ ¬(hystFan.temp_min + hystFan.semi_passive_hyst < 45)
    ∧ FanController.update hystFan ⟨45, "1"⟩ =
        .ok ({ hystFan with turned_off := false }, ⟨some 2, none⟩) := by
  refine ⟨rfl, rfl, by norm_num [hystFan], ?_⟩
  norm_num [FanController.update, snapshotEnable_one, pyRstrip_one, hystFan]
  show float_to_int (FanController.curve_output hystFan 45) = 2
  rw [hystFan_at_45, float_to_int_2]

